import Mathlib

/-!
Verification of the `Vec4Mask` component of glam-rs (src/f32/vec4_mask.rs).

The mask holds four 32-bit lanes.  Both backends (`__m128` SIMD register and
the scalar `XYZW<u32>` structure) are layout-equivalent to `[u32; 4]`, and the
`AsRef<[u32; 4]>` implementation reinterprets the value's memory as that array
(invariant I2).  We embed the value directly as its canonical lane array: a
structure of four natural numbers, each representing the 32-bit pattern of a
lane.  Machine integers are `Nat` with explicit bounds where overflow matters.
-/

/-- The 32-bit all-ones lane pattern `0xFFFFFFFF`. -/
def ALL1 : Nat := 0xFFFFFFFF

/-- A 4-dimensional vector mask: four 32-bit lanes, addressable as x, y, z, w.
Embeds `Vec4Mask` in its canonical lane-array view (invariant I2). -/
structure Vec4Mask where
  x : Nat
  y : Nat
  z : Nat
  w : Nat
deriving DecidableEq, Repr

/-- `AsRef<[u32; 4]> for Vec4Mask`: the value's memory reinterpreted as the
canonical four-element 32-bit array, lane 0 first. -/
def Vec4Mask.asRef (m : Vec4Mask) : List Nat := [m.x, m.y, m.z, m.w]

/-- Truth of a single lane as observed by the capability surface and by the
`Display` implementation's `arr[i] != 0` test: a lane is true iff nonzero. -/
def laneB (l : Nat) : Bool := l != 0

/-- The 32-bit pattern of a boolean lane: `true_value ? 0xFFFFFFFF : 0`. -/
def b2l (b : Bool) : Nat := if b then ALL1 else 0

/-- Modelled from the spec: `MaskVector4::new` (backing `Vec4Mask::new`) is not
under src/.  Spec 4.2: `construct(x,y,z,w)` sets each lane to true/false per the
corresponding argument; spec 4.1: each field is `true_value ? 0xFFFFFFFF : 0`. -/
def Vec4Mask.new (x y z w : Bool) : Vec4Mask :=
  ⟨b2l x, b2l y, b2l z, b2l w⟩

/-- Modelled from the spec: `Inner::FALSE` (`MaskVectorConsts`) is not under
src/.  Spec 4.2: `false_identity()` is the value with every lane false. -/
def Vec4Mask.FALSE : Vec4Mask := ⟨0, 0, 0, 0⟩

/-- `Default for Vec4Mask` from the source: `Self(Inner::FALSE)`. -/
def Vec4Mask.deflt : Vec4Mask := Vec4Mask.FALSE

/-- Modelled from the spec: `MaskVector::any` is not under src/.  Spec 4.2:
true iff at least one lane is true (logical OR-reduction across lanes). -/
def Vec4Mask.any (m : Vec4Mask) : Bool :=
  laneB m.x || laneB m.y || laneB m.z || laneB m.w

/-- Modelled from the spec: `MaskVector::all` is not under src/.  Spec 4.2:
true iff every lane is true (logical AND-reduction across lanes). -/
def Vec4Mask.all (m : Vec4Mask) : Bool :=
  laneB m.x && laneB m.y && laneB m.z && laneB m.w

/-- Modelled from the spec: `MaskVector::bitmask` is not under src/.  Spec 4.2:
a 4-bit value where bit i is 1 iff lane i is true, lane 0 at the
least-significant bit, upper 28 bits zero. -/
def Vec4Mask.bitmask (m : Vec4Mask) : Nat :=
  (if laneB m.x then 1 else 0) |||
  (if laneB m.y then 2 else 0) |||
  (if laneB m.z then 4 else 0) |||
  (if laneB m.w then 8 else 0)

/-- Modelled from the spec: the inner `MaskVector::bitand` is not under src/.
Spec 4.1/4.2: per-lane AND, computed field-by-field (scalar backend) or by one
bitwise vector instruction (SIMD backend). -/
def Vec4Mask.bitand (a b : Vec4Mask) : Vec4Mask :=
  ⟨a.x &&& b.x, a.y &&& b.y, a.z &&& b.z, a.w &&& b.w⟩

/-- Modelled from the spec: the inner `MaskVector::bitor` is not under src/.
Spec 4.1/4.2: per-lane OR. -/
def Vec4Mask.bitor (a b : Vec4Mask) : Vec4Mask :=
  ⟨a.x ||| b.x, a.y ||| b.y, a.z ||| b.z, a.w ||| b.w⟩

/-- 32-bit bitwise complement of one lane. -/
def lnot32 (l : Nat) : Nat := l ^^^ ALL1

/-- Modelled from the spec: the inner `MaskVector::not` is not under src/.
Spec 4.1/4.2: per-lane NOT, i.e. 32-bit complement of each lane. -/
def Vec4Mask.bnot (a : Vec4Mask) : Vec4Mask :=
  ⟨lnot32 a.x, lnot32 a.y, lnot32 a.z, lnot32 a.w⟩

/-- `PartialEq for Vec4Mask` from the source: delegates to equality of the
`as_ref` arrays. -/
def beqMask (a b : Vec4Mask) : Bool := a.asRef == b.asRef

/-- Comparison of two 32-bit words, as `Ord for u32`. -/
def cmpU32 (a b : Nat) : Ordering :=
  if a < b then .lt else if a = b then .eq else .gt

/-- Lexicographic comparison of `u32` sequences, as `Ord for [u32; 4]`
(element-wise, first difference decides). -/
def cmpList : List Nat → List Nat → Ordering
  | [], [] => .eq
  | [], _ :: _ => .lt
  | _ :: _, [] => .gt
  | a :: ta, b :: tb =>
    match cmpU32 a b with
    | .eq => cmpList ta tb
    | o => o

/-- `Ord for Vec4Mask` from the source: delegates to comparison of the
`as_ref` arrays. -/
def cmpMask (a b : Vec4Mask) : Ordering := cmpList a.asRef b.asRef

/-- `PartialOrd for Vec4Mask` from the source: `Some(self.cmp(other))`. -/
def cmpOptMask (a b : Vec4Mask) : Option Ordering := some (cmpMask a b)

/-- A hasher state, modelled as the sequence of words written to it so far. -/
def HasherSt := List Nat

/-- `Hash for [u32; 4]`: writes the length prefix and then each element to the
hasher state. -/
def hashArray (arr : List Nat) (st : List Nat) : List Nat :=
  st ++ arr.length :: arr

/-- `Hash for Vec4Mask` from the source: delegates to hashing of the `as_ref`
array. -/
def hashMask (m : Vec4Mask) (st : List Nat) : List Nat :=
  hashArray m.asRef st

/-- A lane is well-formed (invariant I1) when its 32-bit pattern is all-zero
or all-ones. -/
def laneWF (l : Nat) : Prop := l = 0 ∨ l = ALL1

/-- A mask is well-formed when every lane is (invariant I1). -/
def Vec4Mask.wf (m : Vec4Mask) : Prop :=
  laneWF m.x ∧ laneWF m.y ∧ laneWF m.z ∧ laneWF m.w

/-- Rust's `Display for bool`: the word "true" or "false". -/
def boolStr (b : Bool) : String := if b then "true" else "false"

/-- `Display for Vec4Mask` from the source: renders `arr[i] != 0` for each lane
of the `as_ref` array, bracketed and comma-separated. -/
def Vec4Mask.display (m : Vec4Mask) : String :=
  "[" ++ boolStr (laneB m.x) ++ ", " ++ boolStr (laneB m.y) ++ ", " ++
    boolStr (laneB m.z) ++ ", " ++ boolStr (laneB m.w) ++ "]"

/-- A 4-dimensional numeric vector, embedded by its four 32-bit lane values. -/
structure Vec4 where
  x : Nat
  y : Nat
  z : Nat
  w : Nat
deriving DecidableEq, Repr

/-- Modelled from the spec: `Vec4::select` is an external collaborator, not
under src/.  Spec 6: per lane, return `if_true`'s lane where the mask lane is
true and `if_false`'s lane otherwise. -/
def Vec4.select (mask : Vec4Mask) (if_true if_false : Vec4) : Vec4 :=
  ⟨if laneB mask.x then if_true.x else if_false.x,
   if laneB mask.y then if_true.y else if_false.y,
   if laneB mask.z then if_true.z else if_false.z,
   if laneB mask.w then if_true.w else if_false.w⟩

/-- `Vec4Mask::select` from the source: forwards to `Vec4::select`. -/
def Vec4Mask.select (m : Vec4Mask) (if_true if_false : Vec4) : Vec4 :=
  Vec4.select m if_true if_false

instance (l : Nat) : Decidable (laneWF l) :=
  inferInstanceAs (Decidable (l = 0 ∨ l = ALL1))

instance (m : Vec4Mask) : Decidable m.wf :=
  inferInstanceAs (Decidable (laneWF m.x ∧ laneWF m.y ∧ laneWF m.z ∧ laneWF m.w))

/-- A well-formed lane stays well-formed under per-lane AND. -/
theorem laneWF_and {a b : Nat} (ha : laneWF a) (hb : laneWF b) :
    laneWF (a &&& b) := by
  rcases ha with h | h <;> rcases hb with h' | h' <;> subst h <;> subst h' <;> decide

/-- A well-formed lane stays well-formed under per-lane OR. -/
theorem laneWF_or {a b : Nat} (ha : laneWF a) (hb : laneWF b) :
    laneWF (a ||| b) := by
  rcases ha with h | h <;> rcases hb with h' | h' <;> subst h <;> subst h' <;> decide

/-- A well-formed lane stays well-formed under per-lane NOT. -/
theorem laneWF_not {a : Nat} (ha : laneWF a) : laneWF (lnot32 a) := by
  rcases ha with h | h <;> subst h <;> decide

/-- De Morgan on one well-formed lane: NOT of AND is OR of NOTs. -/
theorem lane_demorgan_and {a b : Nat} (ha : laneWF a) (hb : laneWF b) :
    lnot32 (a &&& b) = lnot32 a ||| lnot32 b := by
  rcases ha with h | h <;> rcases hb with h' | h' <;> subst h <;> subst h' <;> decide

/-- De Morgan on one well-formed lane: NOT of OR is AND of NOTs. -/
theorem lane_demorgan_or {a b : Nat} (ha : laneWF a) (hb : laneWF b) :
    lnot32 (a ||| b) = lnot32 a &&& lnot32 b := by
  rcases ha with h | h <;> rcases hb with h' | h' <;> subst h <;> subst h' <;> decide

/-- Double complement on one well-formed lane restores the lane. -/
theorem lane_not_not {a : Nat} (ha : laneWF a) : lnot32 (lnot32 a) = a := by
  rcases ha with h | h <;> subst h <;> decide

/-- C1: for every four booleans, `new(x,y,z,w)` read back through the array
interface yields the array whose element i is 0xFFFFFFFF when argument i is
true and 0 when it is false, and on that mask `any()` is x||y||z||w and
`all()` is x&&y&&z&&w. -/
theorem c1_new_asRef_any_all (x y z w : Bool) :
    (Vec4Mask.new x y z w).asRef =
      [if x then 0xFFFFFFFF else 0, if y then 0xFFFFFFFF else 0,
       if z then 0xFFFFFFFF else 0, if w then 0xFFFFFFFF else 0] ∧
    (Vec4Mask.new x y z w).any = (x || y || z || w) ∧
    (Vec4Mask.new x y z w).all = (x && y && z && w) := by
  cases x <;> cases y <;> cases z <;> cases w <;> decide

/-- C2: `new`, `default`, `bitand`, `bitor` and `not` all produce masks whose
lanes are each 0x00000000 or 0xFFFFFFFF, given well-formed operands. -/
theorem c2_ops_preserve_wf (a b : Vec4Mask) (ha : a.wf) (hb : b.wf) :
    (∀ x y z w : Bool, (Vec4Mask.new x y z w).wf) ∧
    Vec4Mask.deflt.wf ∧
    (a.bitand b).wf ∧ (a.bitor b).wf ∧ a.bnot.wf := by
  obtain ⟨hax, hay, haz, haw⟩ := ha
  obtain ⟨hbx, hby, hbz, hbw⟩ := hb
  refine ⟨?_, ?_, ?_, ?_, ?_⟩
  · intro x y z w
    cases x <;> cases y <;> cases z <;> cases w <;> decide
  · decide
  · exact ⟨laneWF_and hax hbx, laneWF_and hay hby,
      laneWF_and haz hbz, laneWF_and haw hbw⟩
  · exact ⟨laneWF_or hax hbx, laneWF_or hay hby,
      laneWF_or haz hbz, laneWF_or haw hbw⟩
  · exact ⟨laneWF_not hax, laneWF_not hay, laneWF_not haz, laneWF_not haw⟩

/-- C2 witness at concrete well-formed masks. -/
theorem c2_ops_preserve_wf_witness :
    ((Vec4Mask.new true false true false).bitand (Vec4Mask.new true true false false)).wf ∧
    ((Vec4Mask.new true false true false).bitor (Vec4Mask.new true true false false)).wf ∧
    (Vec4Mask.new true false true false).bnot.wf :=
  (c2_ops_preserve_wf (Vec4Mask.new true false true false)
    (Vec4Mask.new true true false false) (by decide) (by decide)).2.2

/-- Mask equality holds whenever the canonical array views are equal. -/
theorem beqMask_of_eq {a b : Vec4Mask} (h : a.asRef = b.asRef) :
    beqMask a b = true := by
  simp [beqMask, h]

/-- C3: equality, ordering and hashing of masks coincide with the standard
equality, ordering and hashing of their canonical four-element array views:
`a == b` iff the arrays are equal, `cmp` equals the arrays' comparison, and
hashing a mask feeds the hasher exactly as hashing its array does. -/
theorem c3_eq_ord_hash_delegate (a b : Vec4Mask) (st : List Nat) :
    (beqMask a b = true ↔ a.asRef = b.asRef) ∧
    cmpMask a b = cmpList a.asRef b.asRef ∧
    hashMask a st = hashArray a.asRef st := by
  refine ⟨?_, rfl, rfl⟩
  simp [beqMask]

/-- C4: `bitmask()` returns the value whose bit i is 1 iff lane i is true,
lane 0 at the least-significant bit, with the upper 28 bits zero; in particular
the four documented examples hold. -/
theorem c4_bitmask (m : Vec4Mask) :
    ((m.bitmask).testBit 0 = laneB m.x ∧ (m.bitmask).testBit 1 = laneB m.y ∧
     (m.bitmask).testBit 2 = laneB m.z ∧ (m.bitmask).testBit 3 = laneB m.w ∧
     m.bitmask < 16) ∧
    (Vec4Mask.new true false false false).bitmask = 1 ∧
    (Vec4Mask.new false true false false).bitmask = 2 ∧
    (Vec4Mask.new true true true true).bitmask = 0b1111 ∧
    (Vec4Mask.new false false false false).bitmask = 0 := by
  cases hx : laneB m.x <;> cases hy : laneB m.y <;>
    cases hz : laneB m.z <;> cases hw : laneB m.w <;>
    simp only [Vec4Mask.bitmask, hx, hy, hz, hw] <;> decide

/-- C5: De Morgan's laws hold for well-formed masks under the mask equality
contract: `!(a & b) == (!a | !b)` and `!(a | b) == (!a & !b)`. -/
theorem c5_demorgan (a b : Vec4Mask) (ha : a.wf) (hb : b.wf) :
    beqMask ((a.bitand b).bnot) ((a.bnot).bitor (b.bnot)) = true ∧
    beqMask ((a.bitor b).bnot) ((a.bnot).bitand (b.bnot)) = true := by
  obtain ⟨hax, hay, haz, haw⟩ := ha
  obtain ⟨hbx, hby, hbz, hbw⟩ := hb
  refine ⟨beqMask_of_eq ?_, beqMask_of_eq ?_⟩
  · simp only [Vec4Mask.asRef, Vec4Mask.bnot, Vec4Mask.bitand, Vec4Mask.bitor]
    rw [lane_demorgan_and hax hbx, lane_demorgan_and hay hby,
      lane_demorgan_and haz hbz, lane_demorgan_and haw hbw]
  · simp only [Vec4Mask.asRef, Vec4Mask.bnot, Vec4Mask.bitand, Vec4Mask.bitor]
    rw [lane_demorgan_or hax hbx, lane_demorgan_or hay hby,
      lane_demorgan_or haz hbz, lane_demorgan_or haw hbw]

/-- C5 witness at concrete well-formed masks. -/
theorem c5_demorgan_witness :
    beqMask (((Vec4Mask.new true false true false).bitand
        (Vec4Mask.new true true false false)).bnot)
      (((Vec4Mask.new true false true false).bnot).bitor
        ((Vec4Mask.new true true false false).bnot)) = true ∧
    beqMask (((Vec4Mask.new true false true false).bitor
        (Vec4Mask.new true true false false)).bnot)
      (((Vec4Mask.new true false true false).bnot).bitand
        ((Vec4Mask.new true true false false).bnot)) = true :=
  c5_demorgan (Vec4Mask.new true false true false)
    (Vec4Mask.new true true false false) (by decide) (by decide)

/-- C6: negation is involutive on well-formed masks under the mask equality
contract: `!(!a) == a`. -/
theorem c6_not_involutive (a : Vec4Mask) (ha : a.wf) :
    beqMask (a.bnot.bnot) a = true := by
  obtain ⟨hax, hay, haz, haw⟩ := ha
  apply beqMask_of_eq
  simp only [Vec4Mask.asRef, Vec4Mask.bnot]
  rw [lane_not_not hax, lane_not_not hay, lane_not_not haz, lane_not_not haw]

/-- C6 witness at a concrete well-formed mask. -/
theorem c6_not_involutive_witness :
    beqMask ((Vec4Mask.new true false true false).bnot.bnot)
      (Vec4Mask.new true false true false) = true :=
  c6_not_involutive (Vec4Mask.new true false true false) (by decide)

/-- C7: the default mask equals `new(false,false,false,false)` under the mask
equality contract, and every lane of the default is false. -/
theorem c7_default_all_false :
    beqMask Vec4Mask.deflt (Vec4Mask.new false false false false) = true ∧
    laneB Vec4Mask.deflt.x = false ∧ laneB Vec4Mask.deflt.y = false ∧
    laneB Vec4Mask.deflt.z = false ∧ laneB Vec4Mask.deflt.w = false := by
  decide

/-- C8: Display renders each lane as the boolean value of `lane != 0`,
independent of the raw lane bits (masks with the same per-lane nonzero-ness
display identically), and `new(true,false,true,false)` displays exactly as
"[true, false, true, false]". -/
theorem c8_display (m m' : Vec4Mask)
    (h : laneB m.x = laneB m'.x ∧ laneB m.y = laneB m'.y ∧
         laneB m.z = laneB m'.z ∧ laneB m.w = laneB m'.w) :
    m.display = m'.display ∧
    (Vec4Mask.new true false true false).display = "[true, false, true, false]" := by
  obtain ⟨h1, h2, h3, h4⟩ := h
  exact ⟨by simp [Vec4Mask.display, h1, h2, h3, h4], by decide⟩

/-- C8 witness: a mask with non-canonical nonzero lanes displays exactly as the
canonical mask with the same truth values. -/
theorem c8_display_witness :
    (Vec4Mask.mk 1 0 7 0).display = (Vec4Mask.new true false true false).display ∧
    (Vec4Mask.new true false true false).display = "[true, false, true, false]" :=
  c8_display (Vec4Mask.mk 1 0 7 0) (Vec4Mask.new true false true false) (by decide)

/-- C9: `select(mask, if_true, if_false)` returns, per lane, `if_true`'s lane
where the mask lane is true and `if_false`'s lane otherwise; in particular
`new(true,false,true,false)` selecting between (1,2,3,4) and (10,20,30,40)
gives (1,20,3,40). -/
theorem c9_select (m : Vec4Mask) (a b : Vec4) :
    (m.select a b =
      ⟨if laneB m.x then a.x else b.x, if laneB m.y then a.y else b.y,
       if laneB m.z then a.z else b.z, if laneB m.w then a.w else b.w⟩) ∧
    (Vec4Mask.new true false true false).select ⟨1, 2, 3, 4⟩ ⟨10, 20, 30, 40⟩ =
      ⟨1, 20, 3, 40⟩ :=
  ⟨rfl, by decide⟩

/-- C10: comparison of masks is total: `partial_cmp` returns `Some` of exactly
the ordering produced by `cmp`, and never returns `None`. -/
theorem c10_cmpOpt_total (a b : Vec4Mask) :
    cmpOptMask a b = some (cmpMask a b) ∧ cmpOptMask a b ≠ none :=
  ⟨rfl, by simp [cmpOptMask]⟩
